import Mathlib

/-!
Verification of the Solaar onboard-profile UI slice:
the profile import and export flow of `src/lib/solaar/ui/action.py`
(`_do_export`, `_do_import`) and the profile editor dialog of
`src/lib/solaar/ui/profile_editor.py` (`ProfileEditorDialog`),
shallowly embedded as pure Lean functions and an explicit
dialog-state machine.
-/

namespace Solaar

/-- A profile record, as handled by the editor and by import and export:
`name` (string, at most 24 characters in the editor), `enabled`
(truthy integer), `resolutions` (five DPI integers), and the default
and shift resolution indices (integers; values outside `[0, 5)` are
possible in loaded data). -/
structure Profile where
  name : String
  enabled : Nat
  resolutions : List Nat
  resolution_default_index : Int
  resolution_shift_index : Int
deriving DecidableEq

/-- The `OnboardProfiles` object as seen by `_do_import`: a `version`
attribute, a `name` attribute (both read with `getattr(-, -, None)`,
hence `Option`), and the profile dictionary, embedded as an
association list from profile number to record. -/
structure OnboardProfiles where
  version : Option Int
  name : Option String
  profiles : List (Nat × Profile)
deriving DecidableEq

/-- The part of the device object that `_do_import` and the editor read. -/
structure Device where
  name : String
deriving DecidableEq

/-- Modelled from the spec: the fixed expected version constant
`OnboardProfilesVersion`, defined in `logitech_receiver.hidpp20`,
outside this excerpt ("a compatibility tag embedded in exported files").
The claims depend only on it being a fixed integer constant. -/
def OnboardProfilesVersion : Int := 3

/-- Python `str` rendering of a possibly absent integer attribute:
`str(None)` is `"None"`. -/
def pyOptIntStr : Option Int → String
  | none => "None"
  | some v => toString v

/-- Python `str` rendering of a possibly absent string attribute. -/
def pyOptStrStr : Option String → String
  | none => "None"
  | some s => s

/-- The `ValueError` text raised by `_do_import` on a version mismatch:
`"Profile version mismatch. Expected %d, got %s" % (OnboardProfilesVersion, version)`. -/
def versionMismatchText (version : Option Int) : String :=
  "Profile version mismatch. Expected " ++ toString OnboardProfilesVersion
    ++ ", got " ++ pyOptIntStr version

/-- The warning logged by `_do_import` when the stored device name
differs from the current device: the format
`Profile device name %s differs from current device %s`, with each
value wrapped in single quotes as in the source. -/
def nameMismatchWarning (stored : Option String) (deviceName : String) : String :=
  "Profile device name \x27" ++ pyOptStrStr stored
    ++ "\x27 differs from current device \x27" ++ deviceName ++ "\x27"

/-- The modal failure text of `_do_import`:
`"Failed to import profiles:\n%s" % str(e)`. -/
def importFailedMsg (e : String) : String :=
  "Failed to import profiles:\n" ++ e

/-- The modal success text of `_do_import`:
`"Successfully imported profiles.\nWrote %d sectors to %s." % (written, device.name)`. -/
def importSuccessMsg (written : Nat) (deviceName : String) : String :=
  "Successfully imported profiles.\nWrote " ++ toString written
    ++ " sectors to " ++ deviceName ++ "."

/-- The result of `yaml.safe_load` on the chosen file, together with the
file-reading step: either the read or parse raised (first lines of the
`try` block), or it produced an object that is not an `OnboardProfiles`
instance, or an `OnboardProfiles` instance. -/
inductive LoadedValue where
  | loadFailure (msg : String)
  | notOnboardProfiles
  | onboardProfiles (p : OnboardProfiles)
deriving DecidableEq

/-- Observable outcome of one run of `_do_import`: whether
`profiles.write(device)` was called and with which collection, whether
the run ended in the success dialog, the modal dialog title and text,
and the warnings logged on the way. -/
structure ImportResult where
  writeCalled : Bool
  writtenProfiles : Option OnboardProfiles
  success : Bool
  title : String
  message : String
  warnings : List String
deriving DecidableEq

/-- Shallow embedding of `_do_import` from `src/lib/solaar/ui/action.py`.
The loaded file content is passed in as a `LoadedValue`; the behaviour of
`profiles.write(device)` — an external call that returns the number of
sectors written or raises — is passed in as `writeResult`. Every raised
exception is caught by the surrounding `except` block, logged, and shown
as the `Import Failed` modal with `importFailedMsg`. -/
def doImport (loaded : LoadedValue) (device : Device)
    (writeResult : Except String Nat) : ImportResult :=
  match loaded with
  | .loadFailure msg =>
      { writeCalled := false, writtenProfiles := none, success := false,
        title := "Import Failed", message := importFailedMsg msg, warnings := [] }
  | .notOnboardProfiles =>
      { writeCalled := false, writtenProfiles := none, success := false,
        title := "Import Failed",
        message := importFailedMsg "Invalid profiles file format", warnings := [] }
  | .onboardProfiles p =>
      if p.version ≠ some OnboardProfilesVersion then
        { writeCalled := false, writtenProfiles := none, success := false,
          title := "Import Failed",
          message := importFailedMsg (versionMismatchText p.version), warnings := [] }
      else
        let warns := if p.name ≠ some device.name
          then [nameMismatchWarning p.name device.name] else []
        match writeResult with
        | .ok written =>
            { writeCalled := true, writtenProfiles := some p, success := true,
              title := "Import Successful",
              message := importSuccessMsg written device.name, warnings := warns }
        | .error e =>
            { writeCalled := true, writtenProfiles := some p, success := false,
              title := "Import Failed",
              message := importFailedMsg e, warnings := warns }

/-- Modelled from the spec: the document `yaml.dump` writes in
`_do_export` — "a serialized structured document representing the
profile collection object". -/
structure YamlDoc where
  content : OnboardProfiles
deriving DecidableEq

/-- Shallow embedding of the serialization in `_do_export`:
`yaml.dump(device.profiles, f)`. -/
def yamlDump (p : OnboardProfiles) : YamlDoc := YamlDoc.mk p

/-- Modelled from the spec: `yaml.safe_load` applied to a document that
`yaml.dump` produced from an `OnboardProfiles` object yields an equal
`OnboardProfiles` object (the file format "represent[s] the profile
collection object"). -/
def yamlSafeLoad (doc : YamlDoc) : LoadedValue :=
  LoadedValue.onboardProfiles doc.content

/-! Profile editor dialog (`src/lib/solaar/ui/profile_editor.py`). -/

/-- The values held by the edit widgets: the name entry text, the
enabled switch, the five DPI spin buttons, and the active member of
each radio group (`none` when no member of the group is active).
Modelled from the widget contract set up in `_create_edit_panel`:
the entry has `set_max_length(24)`, each spinner has range
`[100, 25600]`, and the two radio groups have five members each. -/
structure Fields where
  nameText : String
  enabledActive : Bool
  dpi : List Nat
  defaultRadio : Option (Fin 5)
  shiftRadio : Option (Fin 5)
deriving DecidableEq

/-- One row of the `profile_store` list model:
`[profile_number, profile_name, enabled_str]`. -/
structure StoreRow where
  num : Nat
  nameCell : String
  enabledCell : String
deriving DecidableEq

/-- The mutable state of a `ProfileEditorDialog`: the referenced profile
collection (`self.profiles.profiles` as an association list), the list
model rows, the selection, the dirty flag, the reentrancy guard counter,
the save button sensitivity, the widget values, whether the dialog is
still open, and the device name used in messages. -/
structure EditorState where
  deviceName : String
  collection : List (Nat × Profile)
  store : List StoreRow
  currentProfileNum : Option Nat
  modified : Bool
  ignoreChanges : Nat
  saveSensitive : Bool
  fields : Fields
  isOpen : Bool
deriving DecidableEq

/-- Truncation performed by a `Gtk.Entry` with `set_max_length(24)`:
both typed and programmatic text is limited to 24 characters. -/
def truncate24 (s : String) : String := String.mk (s.data.take 24)

/-- Clamping performed by a spin button created with
`Gtk.SpinButton.new_with_range(100, 25600, 50)`. -/
def clampDpi (v : Nat) : Nat := max 100 (min v 25600)

/-- The enabled-indicator cell text: `"✓" if profile.enabled else ""`. -/
def enabledStr (p : Profile) : String := if p.enabled ≠ 0 then "✓" else ""

/-- Shallow embedding of `_on_field_changed`: when the reentrancy guard
counter is zero, set the dirty flag and enable the save button. -/
def onFieldChanged (s : EditorState) : EditorState :=
  if s.ignoreChanges = 0 then { s with modified := true, saveSensitive := true } else s

/-- `name_entry.set_text`: store the (truncated) text; the `changed`
signal — wired to `_on_field_changed` — fires only when the text
actually changes. -/
def widgetSetName (s : EditorState) (txt : String) : EditorState :=
  if truncate24 txt = s.fields.nameText then s
  else onFieldChanged { s with fields := { s.fields with nameText := truncate24 txt } }

/-- `enabled_switch.set_active`: store the flag; `notify::active` —
wired to `_on_field_changed` — fires only on an actual change. -/
def widgetSetEnabled (s : EditorState) (b : Bool) : EditorState :=
  if b = s.fields.enabledActive then s
  else onFieldChanged { s with fields := { s.fields with enabledActive := b } }

/-- `dpi_spinners[i].set_value`: store the clamped value;
`value-changed` — wired to `_on_field_changed` — fires only on an
actual change. -/
def widgetSetDpi (s : EditorState) (i : Nat) (v : Nat) : EditorState :=
  if s.fields.dpi.getD i 0 = clampDpi v then s
  else onFieldChanged
    { s with fields := { s.fields with dpi := s.fields.dpi.set i (clampDpi v) } }

/-- `default_radios[i].set_active(True)`: radio `i` becomes the active
member of its group; the `toggled` signals — wired to
`_on_field_changed` — fire only when the active member changes. -/
def widgetSetDefault (s : EditorState) (i : Fin 5) : EditorState :=
  if s.fields.defaultRadio = some i then s
  else onFieldChanged { s with fields := { s.fields with defaultRadio := some i } }

/-- `shift_radios[i].set_active(True)`, as `widgetSetDefault`. -/
def widgetSetShift (s : EditorState) (i : Fin 5) : EditorState :=
  if s.fields.shiftRadio = some i then s
  else onFieldChanged { s with fields := { s.fields with shiftRadio := some i } }

/-- The DPI loop of `_on_profile_selected`: for `i in range(5)`, set
spinner `i` to `profile.resolutions[i]` when it exists, else to `800`. -/
def setDpis (s : EditorState) (p : Profile) : EditorState :=
  (List.range 5).foldl (fun s i => widgetSetDpi s i (p.resolutions.getD i 800)) s

/-- The default-radio step of `_on_profile_selected`: activate the
radio at `profile.resolution_default_index` only when that index is in
`[0, 5)`; otherwise do not touch the radio group. -/
def setDefaultRadioFromProfile (s : EditorState) (p : Profile) : EditorState :=
  if h : 0 ≤ p.resolution_default_index ∧ p.resolution_default_index < 5
  then widgetSetDefault s ⟨p.resolution_default_index.toNat, by omega⟩ else s

/-- The shift-radio step of `_on_profile_selected`, as
`setDefaultRadioFromProfile`. -/
def setShiftRadioFromProfile (s : EditorState) (p : Profile) : EditorState :=
  if h : 0 ≤ p.resolution_shift_index ∧ p.resolution_shift_index < 5
  then widgetSetShift s ⟨p.resolution_shift_index.toNat, by omega⟩ else s

/-- The field-population body of `_on_profile_selected` (inside the
`try` block): name, enabled switch, the five spinners, then the default
and shift radios — the latter only when the stored index is in `[0, 5)`. -/
def populateFields (s : EditorState) (p : Profile) : EditorState :=
  setShiftRadioFromProfile
    (setDefaultRadioFromProfile
      (setDpis (widgetSetEnabled (widgetSetName s p.name) (p.enabled != 0)) p) p) p

/-- Dictionary lookup `self.profiles.profiles[n]` on the association
list embedding. -/
def lookupProfile (n : Nat) (coll : List (Nat × Profile)) : Option Profile :=
  match coll.find? (fun e => e.1 == n) with
  | some e => some e.2
  | none => none

/-- The start of the population section of `_on_profile_selected`:
record the selected profile number and increment the guard counter. -/
def beginPopulate (s : EditorState) (n : Nat) : EditorState :=
  { s with currentProfileNum := some n, ignoreChanges := s.ignoreChanges + 1 }

/-- The `finally` block of `_on_profile_selected`: decrement the guard
counter. -/
def endPopulate (s : EditorState) : EditorState :=
  { s with ignoreChanges := s.ignoreChanges - 1 }

/-- Shallow embedding of `_on_profile_selected` for a selection of row
`rowIdx`: record the profile number of the row as current, populate the
fields with the guard counter incremented around the population (the
`try`/`finally`). A missing row models `tree_iter is None`; a missing
dictionary key cannot occur for stores built from the collection. -/
def selectRow (s : EditorState) (rowIdx : Nat) : EditorState :=
  match s.store.get? rowIdx with
  | none => s
  | some row =>
    match lookupProfile row.num s.collection with
    | none => s
    | some p => endPopulate (populateFields (beginPopulate s row.num) p)

/-- Insertion into a key-sorted association list, for `sorted(...)`. -/
def insertSorted (e : Nat × Profile) : List (Nat × Profile) → List (Nat × Profile)
  | [] => [e]
  | x :: xs => if e.1 ≤ x.1 then e :: x :: xs else x :: insertSorted e xs

/-- `sorted(self.profiles.profiles.items())`: profile entries in key
order. -/
def sortByKey (l : List (Nat × Profile)) : List (Nat × Profile) :=
  l.foldr insertSorted []

/-- Initial widget values at dialog construction: empty entry, switch
off, spinners at the range minimum, no radio active (modelled from the
spec: no radio is pre-selected before any profile is loaded). -/
def initFields : Fields :=
  { nameText := "", enabledActive := false, dpi := List.replicate 5 100,
    defaultRadio := none, shiftRadio := none }

/-- Shallow embedding of `ProfileEditorDialog.__init__` followed by
`_populate_profile_list`: build the sorted store, and when it is
non-empty select the first row (`select_path(0)` fires the `changed`
signal, hence `_on_profile_selected`). -/
def initState (deviceName : String) (coll : List (Nat × Profile)) : EditorState :=
  let store := (sortByKey coll).map
    (fun e => { num := e.1, nameCell := e.2.name, enabledCell := enabledStr e.2 })
  let s0 : EditorState :=
    { deviceName := deviceName, collection := coll, store := store,
      currentProfileNum := none, modified := false, ignoreChanges := 0,
      saveSensitive := false, fields := initFields, isOpen := true }
  if store.isEmpty then s0 else selectRow s0 0

/-- The DPI write-back loop of `_collect_profile_data`: for
`i in range(5)`, assign `profile.resolutions[i]` from spinner `i`;
positions beyond the first five keep their values (for well-formed
records the list has exactly five positions). -/
def assignDpis (dpi : List Nat) (i : Nat) : List Nat → List Nat
  | [] => []
  | v :: vs => (if i < 5 then dpi.getD i v else v) :: assignDpis dpi (i + 1) vs

/-- The record produced by `_collect_profile_data` from the widget
values and the previous record: name from the entry, enabled `1`/`0`
from the switch, the first five resolutions from the spinners, and each
index from its radio group when one is active (left at its previous
value when no radio of the group is active). -/
def collectRecord (f : Fields) (old : Profile) : Profile :=
  { name := f.nameText,
    enabled := if f.enabledActive then 1 else 0,
    resolutions := assignDpis f.dpi 0 old.resolutions,
    resolution_default_index := match f.defaultRadio with
      | some i => (i.val : Int)
      | none => old.resolution_default_index,
    resolution_shift_index := match f.shiftRadio with
      | some i => (i.val : Int)
      | none => old.resolution_shift_index }

/-- The loop `for row in self.profile_store: if row[0] == n: update;
break` of `_collect_profile_data`: update the first row whose profile
number matches. -/
def updateStoreRows (n : Nat) (nm enc : String) : List StoreRow → List StoreRow
  | [] => []
  | r :: rs => if r.num == n then { r with nameCell := nm, enabledCell := enc } :: rs
               else r :: updateStoreRows n nm enc rs

/-- Shallow embedding of `_collect_profile_data`: a no-op when no
profile is selected; otherwise overwrite the record at the current
profile number with `collectRecord` and refresh its display row. -/
def collectProfileData (s : EditorState) : EditorState :=
  match s.currentProfileNum with
  | none => s
  | some n =>
    match lookupProfile n s.collection with
    | none => s
    | some old =>
      let newP := collectRecord s.fields old
      { s with
        collection := s.collection.map (fun e => if e.1 == n then (e.1, newP) else e),
        store := updateStoreRows n newP.name (enabledStr newP) s.store }

/-- Observable outcome of `_do_save`: the collection handed to
`profiles.write(device)`, whether the write succeeded, the modal dialog
shown on completion, and the error logged on failure. -/
structure SaveOutcome where
  writtenCollection : List (Nat × Profile)
  success : Bool
  title : String
  message : String
  loggedError : Option String
deriving DecidableEq

/-- Shallow embedding of `_on_save` followed by the completion of its
asynchronous `_do_save`: collect the field values into the record, then
invoke `self.profiles.write(self.device)` (behaviour passed in as
`writeResult`); on success show the success modal and destroy the
dialog, on failure catch the exception, log it, and show the error
modal, leaving the dialog open. -/
def onSave (s : EditorState) (writeResult : Except String Nat) :
    EditorState × SaveOutcome :=
  let s1 := collectProfileData s
  match writeResult with
  | .ok written =>
      ({ s1 with isOpen := false },
       { writtenCollection := s1.collection, success := true,
         title := "Success",
         message := "Successfully updated profiles on " ++ s1.deviceName
           ++ ".\nWrote " ++ toString written ++ " sectors.",
         loggedError := none })
  | .error e =>
      (s1,
       { writtenCollection := s1.collection, success := false,
         title := "Error",
         message := "Failed to write profiles to device:\n" ++ e,
         loggedError := some e })

/-- Shallow embedding of `_on_cancel`; `confirmDiscard` is whether the
user answers the discard prompt with Yes. Returns the new state and
whether the prompt was shown. -/
def onCancel (s : EditorState) (confirmDiscard : Bool) : EditorState × Bool :=
  if s.modified then
    if confirmDiscard then ({ s with isOpen := false }, true) else (s, true)
  else ({ s with isOpen := false }, false)

/-- The user events the dialog reacts to. -/
inductive Event where
  | select (rowIdx : Nat)
  | editName (txt : String)
  | setEnabled (b : Bool)
  | editDpi (i : Fin 5) (v : Nat)
  | pickDefault (i : Fin 5)
  | pickShift (i : Fin 5)
  | saveClicked (writeResult : Except String Nat)
  | cancelClicked (confirmDiscard : Bool)

/-- One dialog step: dispatch an event to its handler. -/
def step (s : EditorState) : Event → EditorState
  | .select r => selectRow s r
  | .editName t => widgetSetName s t
  | .setEnabled b => widgetSetEnabled s b
  | .editDpi i v => widgetSetDpi s i.val v
  | .pickDefault i => widgetSetDefault s i
  | .pickShift i => widgetSetShift s i
  | .saveClicked wr => (onSave s wr).1
  | .cancelClicked c => (onCancel s c).1

/-- Run a list of events. -/
def runEvents (s : EditorState) (tr : List Event) : EditorState :=
  tr.foldl step s

/-- Whether an event makes a widget value actually change, i.e. fires a
field-changed signal outside population. -/
def firesChange (s : EditorState) : Event → Bool
  | .select _ => false
  | .editName t => if truncate24 t = s.fields.nameText then false else true
  | .setEnabled b => if b = s.fields.enabledActive then false else true
  | .editDpi i v => if s.fields.dpi.getD i.val 0 = clampDpi v then false else true
  | .pickDefault i => if s.fields.defaultRadio = some i then false else true
  | .pickShift i => if s.fields.shiftRadio = some i then false else true
  | .saveClicked _ => false
  | .cancelClicked _ => false

/-- Whether some event of a trace fires a field-changed signal. -/
def anyFires : EditorState → List Event → Bool
  | _, [] => false
  | s, e :: tr => firesChange s e || anyFires (step s e) tr

/-- The widget values that populating from record `p` produces when no
radio was previously active: the snapshot of the last loaded profile. -/
def fieldsOfProfile (p : Profile) : Fields :=
  { nameText := truncate24 p.name,
    enabledActive := p.enabled != 0,
    dpi := (List.range 5).map (fun i => clampDpi (p.resolutions.getD i 800)),
    defaultRadio :=
      if h : 0 ≤ p.resolution_default_index ∧ p.resolution_default_index < 5
      then some ⟨p.resolution_default_index.toNat, by omega⟩ else none,
    shiftRadio :=
      if h : 0 ≤ p.resolution_shift_index ∧ p.resolution_shift_index < 5
      then some ⟨p.resolution_shift_index.toNat, by omega⟩ else none }

/-- Data-model well-formedness of a profile collection: every record
has exactly five resolutions. -/
def ProfilesWF (coll : List (Nat × Profile)) : Prop :=
  ∀ e ∈ coll, (Prod.snd e).resolutions.length = 5

/-- Widget-enforced invariant on widget values: entry text at most 24
characters, five spinners, each value within the spinner range. -/
def FieldInvF (f : Fields) : Prop :=
  f.nameText.length ≤ 24 ∧ f.dpi.length = 5 ∧
    ∀ v ∈ f.dpi, 100 ≤ v ∧ v ≤ 25600

/-- Widget-enforced invariant on the field values of a dialog state. -/
def FieldInv (s : EditorState) : Prop := FieldInvF s.fields

/-- Collection invariant: every record has exactly five resolutions. -/
def CollInv (s : EditorState) : Prop := ProfilesWF s.collection

/-- Dialog states reachable from construction over a collection. -/
def Reachable (deviceName : String) (coll : List (Nat × Profile))
    (s : EditorState) : Prop :=
  ∃ tr, s = runEvents (initState deviceName coll) tr

/-! Concrete data used by witnesses and counterexamples. -/

/-- A well-formed demonstration profile with in-range indices. -/
def demoProfile : Profile :=
  { name := "Alpha", enabled := 1, resolutions := [800, 1200, 1600, 2400, 3200],
    resolution_default_index := 0, resolution_shift_index := 1 }

/-- A one-profile demonstration collection. -/
def demoColl : List (Nat × Profile) := [(1, demoProfile)]

/-- A profile with in-range default index 2. -/
def profA : Profile :=
  { name := "Office", enabled := 1, resolutions := [400, 800, 1200, 1600, 2000],
    resolution_default_index := 2, resolution_shift_index := 0 }

/-- A profile whose default and shift indices are out of `[0, 5)`. -/
def profB : Profile :=
  { name := "Broken", enabled := 0, resolutions := [500, 1000, 1500, 2000, 2500],
    resolution_default_index := 7, resolution_shift_index := 7 }

/-- A collection pairing an in-range profile with an out-of-range one. -/
def cex4Coll : List (Nat × Profile) := [(1, profA), (2, profB)]

/-- A collection holding only the out-of-range profile `profB`. -/
def collB : List (Nat × Profile) := [(2, profB)]

/-- A mixed profile: the default index is out of `[0, 5)` while the
shift index is in range. -/
def profM : Profile :=
  { name := "Mixed", enabled := 1, resolutions := [600, 900, 1100, 1300, 1500],
    resolution_default_index := 7, resolution_shift_index := 1 }

/-- A collection holding only the mixed profile `profM`. -/
def collM : List (Nat × Profile) := [(3, profM)]

/-- The dialog state after opening the editor on `demoColl`, editing the
name to `"Beta"`, and editing it back to `"Alpha"`. -/
def c3state : EditorState :=
  runEvents (initState "DemoMouse" demoColl)
    [Event.editName "Beta", Event.editName "Alpha"]

/-- The dialog state after opening the editor on `cex4Coll` (which
selects and loads profile 1) and then selecting row 1, i.e. loading
profile 2 whose indices are out of range. -/
def c4state : EditorState :=
  runEvents (initState "DemoMouse" cex4Coll) [Event.select 1]

/-! Helper lemmas. -/

/-- With a nonzero guard counter, `_on_field_changed` does nothing. -/
theorem onFieldChanged_skip (s : EditorState) (h : s.ignoreChanges ≠ 0) :
    onFieldChanged s = s := by
  unfold onFieldChanged
  rw [if_neg h]

/-- With a nonzero guard counter, `_on_field_changed` leaves the dirty
flag alone. -/
theorem onFieldChanged_modified_of_ignore (s : EditorState)
    (h : s.ignoreChanges ≠ 0) : (onFieldChanged s).modified = s.modified := by
  rw [onFieldChanged_skip s h]

/-- `_on_field_changed` never touches the widget values. -/
theorem onFieldChanged_fields (s : EditorState) :
    (onFieldChanged s).fields = s.fields := by
  unfold onFieldChanged
  split <;> rfl

/-- `_on_field_changed` touches only the dirty flag and the save
button. -/
theorem onFieldChanged_frame (s : EditorState) :
    (onFieldChanged s).collection = s.collection ∧
    (onFieldChanged s).store = s.store ∧
    (onFieldChanged s).currentProfileNum = s.currentProfileNum ∧
    (onFieldChanged s).isOpen = s.isOpen ∧
    (onFieldChanged s).deviceName = s.deviceName ∧
    (onFieldChanged s).ignoreChanges = s.ignoreChanges := by
  unfold onFieldChanged
  split <;> exact ⟨rfl, rfl, rfl, rfl, rfl, rfl⟩

/-- Setting the name entry touches only the entry text (and, through
the signal, the dirty flag and save button). -/
theorem widgetSetName_frame (s : EditorState) (t : String) :
    (widgetSetName s t).collection = s.collection ∧
    (widgetSetName s t).store = s.store ∧
    (widgetSetName s t).currentProfileNum = s.currentProfileNum ∧
    (widgetSetName s t).isOpen = s.isOpen ∧
    (widgetSetName s t).deviceName = s.deviceName ∧
    (widgetSetName s t).ignoreChanges = s.ignoreChanges ∧
    (widgetSetName s t).fields.enabledActive = s.fields.enabledActive ∧
    (widgetSetName s t).fields.dpi = s.fields.dpi ∧
    (widgetSetName s t).fields.defaultRadio = s.fields.defaultRadio ∧
    (widgetSetName s t).fields.shiftRadio = s.fields.shiftRadio := by
  unfold widgetSetName onFieldChanged
  split
  · exact ⟨rfl, rfl, rfl, rfl, rfl, rfl, rfl, rfl, rfl, rfl⟩
  · split <;> exact ⟨rfl, rfl, rfl, rfl, rfl, rfl, rfl, rfl, rfl, rfl⟩

/-- Setting the enabled switch touches only the switch state. -/
theorem widgetSetEnabled_frame (s : EditorState) (b : Bool) :
    (widgetSetEnabled s b).collection = s.collection ∧
    (widgetSetEnabled s b).store = s.store ∧
    (widgetSetEnabled s b).currentProfileNum = s.currentProfileNum ∧
    (widgetSetEnabled s b).isOpen = s.isOpen ∧
    (widgetSetEnabled s b).deviceName = s.deviceName ∧
    (widgetSetEnabled s b).ignoreChanges = s.ignoreChanges ∧
    (widgetSetEnabled s b).fields.nameText = s.fields.nameText ∧
    (widgetSetEnabled s b).fields.dpi = s.fields.dpi ∧
    (widgetSetEnabled s b).fields.defaultRadio = s.fields.defaultRadio ∧
    (widgetSetEnabled s b).fields.shiftRadio = s.fields.shiftRadio := by
  unfold widgetSetEnabled onFieldChanged
  split
  · exact ⟨rfl, rfl, rfl, rfl, rfl, rfl, rfl, rfl, rfl, rfl⟩
  · split <;> exact ⟨rfl, rfl, rfl, rfl, rfl, rfl, rfl, rfl, rfl, rfl⟩

/-- Setting a spinner touches only the spinner values. -/
theorem widgetSetDpi_frame (s : EditorState) (i v : Nat) :
    (widgetSetDpi s i v).collection = s.collection ∧
    (widgetSetDpi s i v).store = s.store ∧
    (widgetSetDpi s i v).currentProfileNum = s.currentProfileNum ∧
    (widgetSetDpi s i v).isOpen = s.isOpen ∧
    (widgetSetDpi s i v).deviceName = s.deviceName ∧
    (widgetSetDpi s i v).ignoreChanges = s.ignoreChanges ∧
    (widgetSetDpi s i v).fields.nameText = s.fields.nameText ∧
    (widgetSetDpi s i v).fields.enabledActive = s.fields.enabledActive ∧
    (widgetSetDpi s i v).fields.defaultRadio = s.fields.defaultRadio ∧
    (widgetSetDpi s i v).fields.shiftRadio = s.fields.shiftRadio := by
  unfold widgetSetDpi onFieldChanged
  split
  · exact ⟨rfl, rfl, rfl, rfl, rfl, rfl, rfl, rfl, rfl, rfl⟩
  · split <;> exact ⟨rfl, rfl, rfl, rfl, rfl, rfl, rfl, rfl, rfl, rfl⟩

/-- Activating a default radio touches only that radio group. -/
theorem widgetSetDefault_frame (s : EditorState) (i : Fin 5) :
    (widgetSetDefault s i).collection = s.collection ∧
    (widgetSetDefault s i).store = s.store ∧
    (widgetSetDefault s i).currentProfileNum = s.currentProfileNum ∧
    (widgetSetDefault s i).isOpen = s.isOpen ∧
    (widgetSetDefault s i).deviceName = s.deviceName ∧
    (widgetSetDefault s i).ignoreChanges = s.ignoreChanges ∧
    (widgetSetDefault s i).fields.nameText = s.fields.nameText ∧
    (widgetSetDefault s i).fields.enabledActive = s.fields.enabledActive ∧
    (widgetSetDefault s i).fields.dpi = s.fields.dpi ∧
    (widgetSetDefault s i).fields.shiftRadio = s.fields.shiftRadio := by
  unfold widgetSetDefault onFieldChanged
  split
  · exact ⟨rfl, rfl, rfl, rfl, rfl, rfl, rfl, rfl, rfl, rfl⟩
  · split <;> exact ⟨rfl, rfl, rfl, rfl, rfl, rfl, rfl, rfl, rfl, rfl⟩

/-- Activating a shift radio touches only that radio group. -/
theorem widgetSetShift_frame (s : EditorState) (i : Fin 5) :
    (widgetSetShift s i).collection = s.collection ∧
    (widgetSetShift s i).store = s.store ∧
    (widgetSetShift s i).currentProfileNum = s.currentProfileNum ∧
    (widgetSetShift s i).isOpen = s.isOpen ∧
    (widgetSetShift s i).deviceName = s.deviceName ∧
    (widgetSetShift s i).ignoreChanges = s.ignoreChanges ∧
    (widgetSetShift s i).fields.nameText = s.fields.nameText ∧
    (widgetSetShift s i).fields.enabledActive = s.fields.enabledActive ∧
    (widgetSetShift s i).fields.dpi = s.fields.dpi ∧
    (widgetSetShift s i).fields.defaultRadio = s.fields.defaultRadio := by
  unfold widgetSetShift onFieldChanged
  split
  · exact ⟨rfl, rfl, rfl, rfl, rfl, rfl, rfl, rfl, rfl, rfl⟩
  · split <;> exact ⟨rfl, rfl, rfl, rfl, rfl, rfl, rfl, rfl, rfl, rfl⟩

/-- With a nonzero guard counter, setting the name entry cannot set the
dirty flag. -/
theorem widgetSetName_modified (s : EditorState) (t : String)
    (h : s.ignoreChanges ≠ 0) :
    (widgetSetName s t).modified = s.modified := by
  unfold widgetSetName
  split
  · rfl
  · exact onFieldChanged_modified_of_ignore _ h

/-- With a nonzero guard counter, setting the switch cannot set the
dirty flag. -/
theorem widgetSetEnabled_modified (s : EditorState) (b : Bool)
    (h : s.ignoreChanges ≠ 0) :
    (widgetSetEnabled s b).modified = s.modified := by
  unfold widgetSetEnabled
  split
  · rfl
  · exact onFieldChanged_modified_of_ignore _ h

/-- With a nonzero guard counter, setting a spinner cannot set the
dirty flag. -/
theorem widgetSetDpi_modified (s : EditorState) (i v : Nat)
    (h : s.ignoreChanges ≠ 0) :
    (widgetSetDpi s i v).modified = s.modified := by
  unfold widgetSetDpi
  split
  · rfl
  · exact onFieldChanged_modified_of_ignore _ h

/-- With a nonzero guard counter, activating a default radio cannot set
the dirty flag. -/
theorem widgetSetDefault_modified (s : EditorState) (i : Fin 5)
    (h : s.ignoreChanges ≠ 0) :
    (widgetSetDefault s i).modified = s.modified := by
  unfold widgetSetDefault
  split
  · rfl
  · exact onFieldChanged_modified_of_ignore _ h

/-- With a nonzero guard counter, activating a shift radio cannot set
the dirty flag. -/
theorem widgetSetShift_modified (s : EditorState) (i : Fin 5)
    (h : s.ignoreChanges ≠ 0) :
    (widgetSetShift s i).modified = s.modified := by
  unfold widgetSetShift
  split
  · rfl
  · exact onFieldChanged_modified_of_ignore _ h

/-- The spinner-population fold touches only the spinner values. -/
theorem dpiFold_frame (p : Profile) (l : List Nat) :
    ∀ s : EditorState,
    ((l.foldl (fun s i => widgetSetDpi s i (p.resolutions.getD i 800)) s).collection
        = s.collection ∧
     (l.foldl (fun s i => widgetSetDpi s i (p.resolutions.getD i 800)) s).store
        = s.store ∧
     (l.foldl (fun s i => widgetSetDpi s i (p.resolutions.getD i 800)) s).currentProfileNum
        = s.currentProfileNum ∧
     (l.foldl (fun s i => widgetSetDpi s i (p.resolutions.getD i 800)) s).isOpen
        = s.isOpen ∧
     (l.foldl (fun s i => widgetSetDpi s i (p.resolutions.getD i 800)) s).deviceName
        = s.deviceName ∧
     (l.foldl (fun s i => widgetSetDpi s i (p.resolutions.getD i 800)) s).ignoreChanges
        = s.ignoreChanges ∧
     (l.foldl (fun s i => widgetSetDpi s i (p.resolutions.getD i 800)) s).fields.nameText
        = s.fields.nameText ∧
     (l.foldl (fun s i => widgetSetDpi s i (p.resolutions.getD i 800)) s).fields.enabledActive
        = s.fields.enabledActive ∧
     (l.foldl (fun s i => widgetSetDpi s i (p.resolutions.getD i 800)) s).fields.defaultRadio
        = s.fields.defaultRadio ∧
     (l.foldl (fun s i => widgetSetDpi s i (p.resolutions.getD i 800)) s).fields.shiftRadio
        = s.fields.shiftRadio) := by
  induction l with
  | nil =>
    intro s
    exact ⟨rfl, rfl, rfl, rfl, rfl, rfl, rfl, rfl, rfl, rfl⟩
  | cons a l ih =>
    intro s
    simp only [List.foldl_cons]
    obtain ⟨a1, a2, a3, a4, a5, a6, a7, a8, a9, a10⟩ :=
      widgetSetDpi_frame s a (p.resolutions.getD a 800)
    obtain ⟨b1, b2, b3, b4, b5, b6, b7, b8, b9, b10⟩ :=
      ih (widgetSetDpi s a (p.resolutions.getD a 800))
    exact ⟨b1.trans a1, b2.trans a2, b3.trans a3, b4.trans a4, b5.trans a5,
      b6.trans a6, b7.trans a7, b8.trans a8, b9.trans a9, b10.trans a10⟩

/-- With a nonzero guard counter, the spinner-population fold cannot
set the dirty flag. -/
theorem dpiFold_modified (p : Profile) (l : List Nat) :
    ∀ s : EditorState, s.ignoreChanges ≠ 0 →
    (l.foldl (fun s i => widgetSetDpi s i (p.resolutions.getD i 800)) s).modified
      = s.modified := by
  induction l with
  | nil => intro s _; rfl
  | cons a l ih =>
    intro s h
    simp only [List.foldl_cons]
    have h6 := (widgetSetDpi_frame s a (p.resolutions.getD a 800)).2.2.2.2.2.1
    have h7 : (widgetSetDpi s a (p.resolutions.getD a 800)).ignoreChanges ≠ 0 := by
      rw [h6]; exact h
    rw [ih _ h7, widgetSetDpi_modified s a _ h]

/-- `setDpis` touches only the spinner values. -/
theorem setDpis_frame (s : EditorState) (p : Profile) :
    (setDpis s p).collection = s.collection ∧
    (setDpis s p).store = s.store ∧
    (setDpis s p).currentProfileNum = s.currentProfileNum ∧
    (setDpis s p).isOpen = s.isOpen ∧
    (setDpis s p).deviceName = s.deviceName ∧
    (setDpis s p).ignoreChanges = s.ignoreChanges ∧
    (setDpis s p).fields.nameText = s.fields.nameText ∧
    (setDpis s p).fields.enabledActive = s.fields.enabledActive ∧
    (setDpis s p).fields.defaultRadio = s.fields.defaultRadio ∧
    (setDpis s p).fields.shiftRadio = s.fields.shiftRadio := by
  unfold setDpis
  exact dpiFold_frame p (List.range 5) s

/-- With a nonzero guard counter, `setDpis` cannot set the dirty flag. -/
theorem setDpis_modified (s : EditorState) (p : Profile)
    (h : s.ignoreChanges ≠ 0) : (setDpis s p).modified = s.modified := by
  unfold setDpis
  exact dpiFold_modified p (List.range 5) s h

/-- The default-radio step touches only the default radio group. -/
theorem setDefaultRadioFromProfile_frame (s : EditorState) (p : Profile) :
    (setDefaultRadioFromProfile s p).collection = s.collection ∧
    (setDefaultRadioFromProfile s p).store = s.store ∧
    (setDefaultRadioFromProfile s p).currentProfileNum = s.currentProfileNum ∧
    (setDefaultRadioFromProfile s p).isOpen = s.isOpen ∧
    (setDefaultRadioFromProfile s p).deviceName = s.deviceName ∧
    (setDefaultRadioFromProfile s p).ignoreChanges = s.ignoreChanges ∧
    (setDefaultRadioFromProfile s p).fields.nameText = s.fields.nameText ∧
    (setDefaultRadioFromProfile s p).fields.enabledActive = s.fields.enabledActive ∧
    (setDefaultRadioFromProfile s p).fields.dpi = s.fields.dpi ∧
    (setDefaultRadioFromProfile s p).fields.shiftRadio = s.fields.shiftRadio := by
  unfold setDefaultRadioFromProfile
  split
  · exact widgetSetDefault_frame s _
  · exact ⟨rfl, rfl, rfl, rfl, rfl, rfl, rfl, rfl, rfl, rfl⟩

/-- With a nonzero guard counter, the default-radio step cannot set the
dirty flag. -/
theorem setDefaultRadioFromProfile_modified (s : EditorState) (p : Profile)
    (h : s.ignoreChanges ≠ 0) :
    (setDefaultRadioFromProfile s p).modified = s.modified := by
  unfold setDefaultRadioFromProfile
  split
  · exact widgetSetDefault_modified s _ h
  · rfl

/-- The shift-radio step touches only the shift radio group. -/
theorem setShiftRadioFromProfile_frame (s : EditorState) (p : Profile) :
    (setShiftRadioFromProfile s p).collection = s.collection ∧
    (setShiftRadioFromProfile s p).store = s.store ∧
    (setShiftRadioFromProfile s p).currentProfileNum = s.currentProfileNum ∧
    (setShiftRadioFromProfile s p).isOpen = s.isOpen ∧
    (setShiftRadioFromProfile s p).deviceName = s.deviceName ∧
    (setShiftRadioFromProfile s p).ignoreChanges = s.ignoreChanges ∧
    (setShiftRadioFromProfile s p).fields.nameText = s.fields.nameText ∧
    (setShiftRadioFromProfile s p).fields.enabledActive = s.fields.enabledActive ∧
    (setShiftRadioFromProfile s p).fields.dpi = s.fields.dpi ∧
    (setShiftRadioFromProfile s p).fields.defaultRadio = s.fields.defaultRadio := by
  unfold setShiftRadioFromProfile
  split
  · exact widgetSetShift_frame s _
  · exact ⟨rfl, rfl, rfl, rfl, rfl, rfl, rfl, rfl, rfl, rfl⟩

/-- With a nonzero guard counter, the shift-radio step cannot set the
dirty flag. -/
theorem setShiftRadioFromProfile_modified (s : EditorState) (p : Profile)
    (h : s.ignoreChanges ≠ 0) :
    (setShiftRadioFromProfile s p).modified = s.modified := by
  unfold setShiftRadioFromProfile
  split
  · exact widgetSetShift_modified s _ h
  · rfl

/-- Population touches neither the collection, the store, the
selection, the open flag, the device name, nor the guard counter. -/
theorem populateFields_frame (s : EditorState) (p : Profile) :
    (populateFields s p).collection = s.collection ∧
    (populateFields s p).store = s.store ∧
    (populateFields s p).currentProfileNum = s.currentProfileNum ∧
    (populateFields s p).isOpen = s.isOpen ∧
    (populateFields s p).deviceName = s.deviceName ∧
    (populateFields s p).ignoreChanges = s.ignoreChanges := by
  unfold populateFields
  obtain ⟨a1, a2, a3, a4, a5, a6, -, -, -, -⟩ := widgetSetName_frame s p.name
  obtain ⟨b1, b2, b3, b4, b5, b6, -, -, -, -⟩ :=
    widgetSetEnabled_frame (widgetSetName s p.name) (p.enabled != 0)
  obtain ⟨c1, c2, c3, c4, c5, c6, -, -, -, -⟩ :=
    setDpis_frame (widgetSetEnabled (widgetSetName s p.name) (p.enabled != 0)) p
  obtain ⟨d1, d2, d3, d4, d5, d6, -, -, -, -⟩ :=
    setDefaultRadioFromProfile_frame
      (setDpis (widgetSetEnabled (widgetSetName s p.name) (p.enabled != 0)) p) p
  obtain ⟨e1, e2, e3, e4, e5, e6, -, -, -, -⟩ :=
    setShiftRadioFromProfile_frame
      (setDefaultRadioFromProfile
        (setDpis (widgetSetEnabled (widgetSetName s p.name) (p.enabled != 0)) p) p) p
  exact ⟨((((e1.trans d1).trans c1).trans b1).trans a1),
    ((((e2.trans d2).trans c2).trans b2).trans a2),
    ((((e3.trans d3).trans c3).trans b3).trans a3),
    ((((e4.trans d4).trans c4).trans b4).trans a4),
    ((((e5.trans d5).trans c5).trans b5).trans a5),
    ((((e6.trans d6).trans c6).trans b6).trans a6)⟩

/-- With a nonzero guard counter, population cannot set the dirty flag:
the loading state never dirties the form. -/
theorem populateFields_modified (s : EditorState) (p : Profile)
    (h : s.ignoreChanges ≠ 0) : (populateFields s p).modified = s.modified := by
  unfold populateFields
  have a6 := (widgetSetName_frame s p.name).2.2.2.2.2.1
  have am := widgetSetName_modified s p.name h
  have hb : (widgetSetName s p.name).ignoreChanges ≠ 0 := by rw [a6]; exact h
  have b6 := (widgetSetEnabled_frame (widgetSetName s p.name) (p.enabled != 0)).2.2.2.2.2.1
  have bm := widgetSetEnabled_modified (widgetSetName s p.name) (p.enabled != 0) hb
  have hc : (widgetSetEnabled (widgetSetName s p.name) (p.enabled != 0)).ignoreChanges ≠ 0 := by
    rw [b6]; exact hb
  have c6 := (setDpis_frame (widgetSetEnabled (widgetSetName s p.name) (p.enabled != 0)) p).2.2.2.2.2.1
  have cm := setDpis_modified (widgetSetEnabled (widgetSetName s p.name) (p.enabled != 0)) p hc
  have hd : (setDpis (widgetSetEnabled (widgetSetName s p.name) (p.enabled != 0)) p).ignoreChanges ≠ 0 := by
    rw [c6]; exact hc
  have d6 := (setDefaultRadioFromProfile_frame
    (setDpis (widgetSetEnabled (widgetSetName s p.name) (p.enabled != 0)) p) p).2.2.2.2.2.1
  have dm := setDefaultRadioFromProfile_modified
    (setDpis (widgetSetEnabled (widgetSetName s p.name) (p.enabled != 0)) p) p hd
  have he : (setDefaultRadioFromProfile
      (setDpis (widgetSetEnabled (widgetSetName s p.name) (p.enabled != 0)) p) p).ignoreChanges ≠ 0 := by
    rw [d6]; exact hd
  have em := setShiftRadioFromProfile_modified
    (setDefaultRadioFromProfile
      (setDpis (widgetSetEnabled (widgetSetName s p.name) (p.enabled != 0)) p) p) p he
  rw [em, dm, cm, bm, am]

/-- `_on_profile_selected` with no selected row is a no-op. -/
theorem selectRow_none (s : EditorState) (r : Nat)
    (hg : s.store.get? r = none) : selectRow s r = s := by
  unfold selectRow
  rw [hg]

/-- `_on_profile_selected` on a row whose profile number is missing
from the collection (unreachable for well-built stores) is a no-op. -/
theorem selectRow_missing (s : EditorState) (r : Nat) (row : StoreRow)
    (hg : s.store.get? r = some row)
    (hl : lookupProfile row.num s.collection = none) : selectRow s r = s := by
  unfold selectRow
  rw [hg]
  dsimp only
  rw [hl]

/-- `_on_profile_selected` on a valid row: set the current profile and
populate inside the guard. -/
theorem selectRow_some (s : EditorState) (r : Nat) (row : StoreRow) (p : Profile)
    (hg : s.store.get? r = some row)
    (hl : lookupProfile row.num s.collection = some p) :
    selectRow s r = endPopulate (populateFields (beginPopulate s row.num) p) := by
  unfold selectRow
  rw [hg]
  dsimp only
  rw [hl]

/-- `_on_profile_selected` touches neither the collection, the store,
the open flag, the device name, the guard counter, nor — crucially —
the dirty flag. -/
theorem selectRow_frame (s : EditorState) (r : Nat) :
    (selectRow s r).collection = s.collection ∧
    (selectRow s r).store = s.store ∧
    (selectRow s r).isOpen = s.isOpen ∧
    (selectRow s r).deviceName = s.deviceName ∧
    (selectRow s r).ignoreChanges = s.ignoreChanges ∧
    (selectRow s r).modified = s.modified := by
  cases hg : s.store.get? r with
  | none =>
    rw [selectRow_none s r hg]
    exact ⟨rfl, rfl, rfl, rfl, rfl, rfl⟩
  | some row =>
    cases hl : lookupProfile row.num s.collection with
    | none =>
      rw [selectRow_missing s r row hg hl]
      exact ⟨rfl, rfl, rfl, rfl, rfl, rfl⟩
    | some p =>
      rw [selectRow_some s r row p hg hl]
      obtain ⟨f1, f2, -, f4, f5, f6⟩ := populateFields_frame (beginPopulate s row.num) p
      have hig : (beginPopulate s row.num).ignoreChanges ≠ 0 := Nat.succ_ne_zero _
      have fm := populateFields_modified (beginPopulate s row.num) p hig
      refine ⟨f1, f2, f4, f5, ?_, fm⟩
      show (populateFields (beginPopulate s row.num) p).ignoreChanges - 1 = s.ignoreChanges
      rw [f6]
      show s.ignoreChanges + 1 - 1 = s.ignoreChanges
      omega

/-- `_collect_profile_data` with no selection is a no-op. -/
theorem collect_none (s : EditorState) (hc : s.currentProfileNum = none) :
    collectProfileData s = s := by
  unfold collectProfileData
  rw [hc]

/-- `_collect_profile_data` with a selected number missing from the
collection (unreachable for well-built stores) is a no-op. -/
theorem collect_missing (s : EditorState) (n : Nat)
    (hc : s.currentProfileNum = some n)
    (hl : lookupProfile n s.collection = none) : collectProfileData s = s := by
  unfold collectProfileData
  rw [hc]
  dsimp only
  rw [hl]

/-- `_collect_profile_data` with a valid selection rewrites the record
at the selected number and refreshes its display row. -/
theorem collect_some (s : EditorState) (n : Nat) (old : Profile)
    (hc : s.currentProfileNum = some n)
    (hl : lookupProfile n s.collection = some old) :
    collectProfileData s =
      { s with
        collection := s.collection.map
          (fun e => if e.1 == n then (e.1, collectRecord s.fields old) else e),
        store := updateStoreRows n (collectRecord s.fields old).name
          (enabledStr (collectRecord s.fields old)) s.store } := by
  unfold collectProfileData
  rw [hc]
  dsimp only
  rw [hl]

/-- `_collect_profile_data` touches only the collection and the store. -/
theorem collectProfileData_frame (s : EditorState) :
    (collectProfileData s).currentProfileNum = s.currentProfileNum ∧
    (collectProfileData s).modified = s.modified ∧
    (collectProfileData s).ignoreChanges = s.ignoreChanges ∧
    (collectProfileData s).fields = s.fields ∧
    (collectProfileData s).isOpen = s.isOpen ∧
    (collectProfileData s).deviceName = s.deviceName := by
  cases hc : s.currentProfileNum with
  | none =>
    rw [collect_none s hc]
    exact ⟨hc, rfl, rfl, rfl, rfl, rfl⟩
  | some n =>
    cases hl : lookupProfile n s.collection with
    | none =>
      rw [collect_missing s n hc hl]
      exact ⟨hc, rfl, rfl, rfl, rfl, rfl⟩
    | some old =>
      rw [collect_some s n old hc hl]
      exact ⟨hc, rfl, rfl, rfl, rfl, rfl⟩

/-- With a zero guard counter, `_on_field_changed` sets the dirty flag
and enables the save button. -/
theorem onFieldChanged_fires (s : EditorState) (h : s.ignoreChanges = 0) :
    (onFieldChanged s).modified = true ∧ (onFieldChanged s).saveSensitive = true := by
  unfold onFieldChanged
  rw [if_pos h]
  exact ⟨rfl, rfl⟩

/-- No event changes the guard counter as observed between events. -/
theorem step_ignoreChanges (s : EditorState) (e : Event) :
    (step s e).ignoreChanges = s.ignoreChanges := by
  cases e with
  | select r => exact (selectRow_frame s r).2.2.2.2.1
  | editName t => exact (widgetSetName_frame s t).2.2.2.2.2.1
  | setEnabled b => exact (widgetSetEnabled_frame s b).2.2.2.2.2.1
  | editDpi i v => exact (widgetSetDpi_frame s i.val v).2.2.2.2.2.1
  | pickDefault i => exact (widgetSetDefault_frame s i).2.2.2.2.2.1
  | pickShift i => exact (widgetSetShift_frame s i).2.2.2.2.2.1
  | saveClicked wr => cases wr <;> exact (collectProfileData_frame s).2.2.1
  | cancelClicked c =>
    show (onCancel s c).1.ignoreChanges = s.ignoreChanges
    unfold onCancel
    split
    · split <;> rfl
    · rfl

/-- At a zero guard counter, one event sets the dirty flag exactly when
it actually changes a widget value. -/
theorem step_modified (s : EditorState) (e : Event) (h : s.ignoreChanges = 0) :
    (step s e).modified = (s.modified || firesChange s e) := by
  cases e with
  | select r =>
    show (selectRow s r).modified = (s.modified || false)
    rw [Bool.or_false]
    exact (selectRow_frame s r).2.2.2.2.2
  | editName t =>
    show (widgetSetName s t).modified
      = (s.modified || (if truncate24 t = s.fields.nameText then false else true))
    unfold widgetSetName
    by_cases hc : truncate24 t = s.fields.nameText
    · rw [if_pos hc, if_pos hc, Bool.or_false]
    · rw [if_neg hc, if_neg hc, Bool.or_true]
      refine (onFieldChanged_fires _ ?_).1
      exact h
  | setEnabled b =>
    show (widgetSetEnabled s b).modified
      = (s.modified || (if b = s.fields.enabledActive then false else true))
    unfold widgetSetEnabled
    by_cases hc : b = s.fields.enabledActive
    · rw [if_pos hc, if_pos hc, Bool.or_false]
    · rw [if_neg hc, if_neg hc, Bool.or_true]
      refine (onFieldChanged_fires _ ?_).1
      exact h
  | editDpi i v =>
    show (widgetSetDpi s i.val v).modified
      = (s.modified || (if s.fields.dpi.getD i.val 0 = clampDpi v then false else true))
    unfold widgetSetDpi
    by_cases hc : s.fields.dpi.getD i.val 0 = clampDpi v
    · rw [if_pos hc, if_pos hc, Bool.or_false]
    · rw [if_neg hc, if_neg hc, Bool.or_true]
      refine (onFieldChanged_fires _ ?_).1
      exact h
  | pickDefault i =>
    show (widgetSetDefault s i).modified
      = (s.modified || (if s.fields.defaultRadio = some i then false else true))
    unfold widgetSetDefault
    by_cases hc : s.fields.defaultRadio = some i
    · rw [if_pos hc, if_pos hc, Bool.or_false]
    · rw [if_neg hc, if_neg hc, Bool.or_true]
      refine (onFieldChanged_fires _ ?_).1
      exact h
  | pickShift i =>
    show (widgetSetShift s i).modified
      = (s.modified || (if s.fields.shiftRadio = some i then false else true))
    unfold widgetSetShift
    by_cases hc : s.fields.shiftRadio = some i
    · rw [if_pos hc, if_pos hc, Bool.or_false]
    · rw [if_neg hc, if_neg hc, Bool.or_true]
      refine (onFieldChanged_fires _ ?_).1
      exact h
  | saveClicked wr =>
    show (onSave s wr).1.modified = (s.modified || false)
    rw [Bool.or_false]
    cases wr <;> exact (collectProfileData_frame s).2.1
  | cancelClicked c =>
    show (onCancel s c).1.modified = (s.modified || false)
    rw [Bool.or_false]
    unfold onCancel
    split
    · split <;> rfl
    · rfl

/-- Over a whole trace at a zero guard counter, the dirty flag is the
disjunction of the initial flag with the field-changed signals fired. -/
theorem runEvents_modified : ∀ (tr : List Event) (s : EditorState),
    s.ignoreChanges = 0 →
    (runEvents s tr).modified = (s.modified || anyFires s tr) := by
  intro tr
  induction tr with
  | nil =>
    intro s _
    show s.modified = (s.modified || false)
    rw [Bool.or_false]
  | cons e tr ih =>
    intro s h
    show (runEvents (step s e) tr).modified
      = (s.modified || (firesChange s e || anyFires (step s e) tr))
    have h2 : (step s e).ignoreChanges = 0 := by rw [step_ignoreChanges]; exact h
    rw [ih (step s e) h2, step_modified s e h, Bool.or_assoc]

/-- At dialog construction the form is clean, the guard counter is
zero, the collection is the referenced one, and the dialog is open. -/
theorem initState_base (dn : String) (coll : List (Nat × Profile)) :
    (initState dn coll).modified = false ∧
    (initState dn coll).ignoreChanges = 0 ∧
    (initState dn coll).collection = coll ∧
    (initState dn coll).isOpen = true := by
  unfold initState
  dsimp only
  split
  · exact ⟨rfl, rfl, rfl, rfl⟩
  · exact ⟨(selectRow_frame _ 0).2.2.2.2.2, (selectRow_frame _ 0).2.2.2.2.1,
      (selectRow_frame _ 0).1, (selectRow_frame _ 0).2.2.1⟩

/-- Entry truncation produces at most 24 characters. -/
theorem truncate24_length (s : String) : (truncate24 s).length ≤ 24 := by
  show (s.data.take 24).length ≤ 24
  rw [List.length_take]
  exact Nat.min_le_left 24 s.data.length

/-- Spinner clamping lands in the spinner range. -/
theorem clampDpi_bounds (v : Nat) : 100 ≤ clampDpi v ∧ clampDpi v ≤ 25600 := by
  unfold clampDpi
  constructor
  · exact Nat.le_max_left 100 (min v 25600)
  · exact Nat.max_le.mpr ⟨by norm_num, Nat.min_le_right v 25600⟩

/-- An in-bounds `getD` returns a member of the list. -/
theorem getD_mem : ∀ (l : List Nat) (i d : Nat), i < l.length → l.getD i d ∈ l := by
  intro l
  induction l with
  | nil => intro i d h; cases h
  | cons a l ih =>
    intro i d h
    cases i with
    | zero => exact List.mem_cons_self a l
    | succ j =>
      have : l.getD j d ∈ l := ih j d (Nat.lt_of_succ_lt_succ h)
      exact List.mem_cons_of_mem a this

/-- The DPI write-back loop preserves the number of resolutions. -/
theorem assignDpis_length (dpi : List Nat) :
    ∀ (l : List Nat) (i : Nat), (assignDpis dpi i l).length = l.length := by
  intro l
  induction l with
  | nil => intro i; rfl
  | cons a l ih =>
    intro i
    show (assignDpis dpi i (a :: l)).length = l.length + 1
    unfold assignDpis
    show ((if i < 5 then dpi.getD i a else a) :: assignDpis dpi (i + 1) l).length
      = l.length + 1
    rw [List.length_cons, ih (i + 1)]

/-- On a five-element record with five spinners, every value the DPI
write-back loop stores comes from the spinners. -/
theorem assignDpis_mem (dpi : List Nat) (h5 : dpi.length = 5) :
    ∀ (l : List Nat) (i : Nat), i + l.length ≤ 5 →
    ∀ v ∈ assignDpis dpi i l, v ∈ dpi := by
  intro l
  induction l with
  | nil => intro i _ v hv; cases hv
  | cons a l ih =>
    intro i hle v hv
    unfold assignDpis at hv
    rw [List.mem_cons] at hv
    cases hv with
    | inl hhead =>
      have hi5 : i < 5 := by
        have := List.length_cons a l
        omega
      rw [if_pos hi5] at hhead
      have himem : dpi.getD i a ∈ dpi := getD_mem dpi i a (by omega)
      rw [hhead]
      exact himem
    | inr htail =>
      refine ih (i + 1) ?_ v htail
      have := List.length_cons a l
      omega

/-- A successful dictionary lookup returns a record of the collection. -/
theorem lookupProfile_mem (n : Nat) (l : List (Nat × Profile)) (p : Profile)
    (h : lookupProfile n l = some p) : ∃ e ∈ l, e.2 = p := by
  unfold lookupProfile at h
  cases hf : l.find? (fun e => e.1 == n) with
  | none => rw [hf] at h; cases h
  | some e =>
    rw [hf] at h
    refine ⟨e, List.mem_of_find?_eq_some hf, ?_⟩
    cases h
    rfl

/-- Overwriting the entry at a key makes lookups at that key return the
new record, provided the key was present. -/
theorem lookupProfile_map_update (n : Nat) (newP : Profile) :
    ∀ (l : List (Nat × Profile)) (old : Profile),
    lookupProfile n l = some old →
    lookupProfile n (l.map (fun e => if e.1 == n then (e.1, newP) else e))
      = some newP := by
  intro l
  induction l with
  | nil => intro old h; cases h
  | cons a l ih =>
    intro old h
    by_cases hk : a.1 = n
    · have hb : (a.1 == n) = true := by simp [hk]
      show lookupProfile n ((if a.1 == n then (a.1, newP) else a)
        :: l.map (fun e => if e.1 == n then (e.1, newP) else e)) = some newP
      rw [if_pos hb]
      unfold lookupProfile
      simp [List.find?_cons, hb]
    · have hb : (a.1 == n) = false := by simp [hk]
      have hbn : ¬ ((a.1 == n) = true) := by rw [hb]; exact Bool.false_ne_true
      unfold lookupProfile at h
      simp only [List.find?_cons, hb] at h
      show lookupProfile n ((if a.1 == n then (a.1, newP) else a)
        :: l.map (fun e => if e.1 == n then (e.1, newP) else e)) = some newP
      rw [if_neg hbn]
      unfold lookupProfile
      simp only [List.find?_cons, hb]
      exact ih old h

/-- The initial widget values satisfy the widget invariant. -/
theorem initFields_inv : FieldInvF initFields :=
  ⟨by decide, by decide, by decide⟩

/-- Setting the name entry preserves the widget invariant. -/
theorem widgetSetName_fieldInv (s : EditorState) (t : String)
    (h : FieldInv s) : FieldInv (widgetSetName s t) := by
  unfold widgetSetName
  split
  · exact h
  · unfold FieldInv
    rw [onFieldChanged_fields]
    obtain ⟨h1, h2, h3⟩ := h
    exact ⟨truncate24_length t, h2, h3⟩

/-- Setting the switch preserves the widget invariant. -/
theorem widgetSetEnabled_fieldInv (s : EditorState) (b : Bool)
    (h : FieldInv s) : FieldInv (widgetSetEnabled s b) := by
  unfold widgetSetEnabled
  split
  · exact h
  · unfold FieldInv
    rw [onFieldChanged_fields]
    exact h

/-- Setting a spinner preserves the widget invariant. -/
theorem widgetSetDpi_fieldInv (s : EditorState) (i v : Nat)
    (h : FieldInv s) : FieldInv (widgetSetDpi s i v) := by
  unfold widgetSetDpi
  split
  · exact h
  · unfold FieldInv
    rw [onFieldChanged_fields]
    obtain ⟨h1, h2, h3⟩ := h
    refine ⟨h1, ?_, ?_⟩
    · show (s.fields.dpi.set i (clampDpi v)).length = 5
      rw [List.length_set]
      exact h2
    · intro w hw
      rcases List.mem_or_eq_of_mem_set hw with hmem | heq
      · exact h3 w hmem
      · rw [heq]
        exact clampDpi_bounds v

/-- Activating a default radio preserves the widget invariant. -/
theorem widgetSetDefault_fieldInv (s : EditorState) (i : Fin 5)
    (h : FieldInv s) : FieldInv (widgetSetDefault s i) := by
  unfold widgetSetDefault
  split
  · exact h
  · unfold FieldInv
    rw [onFieldChanged_fields]
    exact h

/-- Activating a shift radio preserves the widget invariant. -/
theorem widgetSetShift_fieldInv (s : EditorState) (i : Fin 5)
    (h : FieldInv s) : FieldInv (widgetSetShift s i) := by
  unfold widgetSetShift
  split
  · exact h
  · unfold FieldInv
    rw [onFieldChanged_fields]
    exact h

/-- The spinner-population fold preserves the widget invariant. -/
theorem dpiFold_fieldInv (p : Profile) (l : List Nat) :
    ∀ s : EditorState, FieldInv s →
    FieldInv (l.foldl (fun s i => widgetSetDpi s i (p.resolutions.getD i 800)) s) := by
  induction l with
  | nil => intro s h; exact h
  | cons a l ih =>
    intro s h
    simp only [List.foldl_cons]
    exact ih _ (widgetSetDpi_fieldInv s a _ h)

/-- Population preserves the widget invariant. -/
theorem populateFields_fieldInv (s : EditorState) (p : Profile)
    (h : FieldInv s) : FieldInv (populateFields s p) := by
  unfold populateFields
  have h1 := widgetSetName_fieldInv s p.name h
  have h2 := widgetSetEnabled_fieldInv _ (p.enabled != 0) h1
  have h3 : FieldInv (setDpis (widgetSetEnabled (widgetSetName s p.name) (p.enabled != 0)) p) := by
    unfold setDpis
    exact dpiFold_fieldInv p (List.range 5) _ h2
  have h4 : FieldInv (setDefaultRadioFromProfile
      (setDpis (widgetSetEnabled (widgetSetName s p.name) (p.enabled != 0)) p) p) := by
    unfold setDefaultRadioFromProfile
    split
    · exact widgetSetDefault_fieldInv _ _ h3
    · exact h3
  unfold setShiftRadioFromProfile
  split
  · exact widgetSetShift_fieldInv _ _ h4
  · exact h4

/-- Selection preserves the widget invariant. -/
theorem selectRow_fieldInv (s : EditorState) (r : Nat)
    (h : FieldInv s) : FieldInv (selectRow s r) := by
  cases hg : s.store.get? r with
  | none => rw [selectRow_none s r hg]; exact h
  | some row =>
    cases hl : lookupProfile row.num s.collection with
    | none => rw [selectRow_missing s r row hg hl]; exact h
    | some p =>
      rw [selectRow_some s r row p hg hl]
      have hb : FieldInv (beginPopulate s row.num) := h
      have hp := populateFields_fieldInv (beginPopulate s row.num) p hb
      exact hp

/-- Collecting field values preserves the widget invariant. -/
theorem collectProfileData_fieldInv (s : EditorState)
    (h : FieldInv s) : FieldInv (collectProfileData s) := by
  unfold FieldInv
  rw [(collectProfileData_frame s).2.2.2.1]
  exact h

/-- Every event preserves the widget invariant. -/
theorem step_fieldInv (s : EditorState) (e : Event)
    (h : FieldInv s) : FieldInv (step s e) := by
  cases e with
  | select r => exact selectRow_fieldInv s r h
  | editName t => exact widgetSetName_fieldInv s t h
  | setEnabled b => exact widgetSetEnabled_fieldInv s b h
  | editDpi i v => exact widgetSetDpi_fieldInv s i.val v h
  | pickDefault i => exact widgetSetDefault_fieldInv s i h
  | pickShift i => exact widgetSetShift_fieldInv s i h
  | saveClicked wr =>
    cases wr with
    | ok n => exact collectProfileData_fieldInv s h
    | error e => exact collectProfileData_fieldInv s h
  | cancelClicked c =>
    show FieldInv (onCancel s c).1
    unfold onCancel
    split
    · split
      · exact h
      · exact h
    · exact h

/-- Collecting field values preserves the five-resolution shape of
every record. -/
theorem collectProfileData_collInv (s : EditorState)
    (h : CollInv s) : CollInv (collectProfileData s) := by
  cases hc : s.currentProfileNum with
  | none => rw [collect_none s hc]; exact h
  | some n =>
    cases hl : lookupProfile n s.collection with
    | none => rw [collect_missing s n hc hl]; exact h
    | some old =>
      rw [collect_some s n old hc hl]
      intro e he
      show e.2.resolutions.length = 5
      rw [List.mem_map] at he
      obtain ⟨orig, ho, heq⟩ := he
      obtain ⟨e0, he0, he02⟩ := lookupProfile_mem n s.collection old hl
      by_cases hk : (orig.1 == n) = true
      · rw [if_pos hk] at heq
        rw [← heq]
        show (collectRecord s.fields old).resolutions.length = 5
        unfold collectRecord
        show (assignDpis s.fields.dpi 0 old.resolutions).length = 5
        rw [assignDpis_length]
        rw [← he02]
        exact h e0 he0
      · rw [if_neg hk] at heq
        rw [← heq]
        exact h orig ho

/-- Every event preserves the five-resolution shape of every record. -/
theorem step_collInv (s : EditorState) (e : Event)
    (h : CollInv s) : CollInv (step s e) := by
  cases e with
  | select r =>
    show ProfilesWF (selectRow s r).collection
    rw [(selectRow_frame s r).1]
    exact h
  | editName t =>
    show ProfilesWF (widgetSetName s t).collection
    rw [(widgetSetName_frame s t).1]
    exact h
  | setEnabled b =>
    show ProfilesWF (widgetSetEnabled s b).collection
    rw [(widgetSetEnabled_frame s b).1]
    exact h
  | editDpi i v =>
    show ProfilesWF (widgetSetDpi s i.val v).collection
    rw [(widgetSetDpi_frame s i.val v).1]
    exact h
  | pickDefault i =>
    show ProfilesWF (widgetSetDefault s i).collection
    rw [(widgetSetDefault_frame s i).1]
    exact h
  | pickShift i =>
    show ProfilesWF (widgetSetShift s i).collection
    rw [(widgetSetShift_frame s i).1]
    exact h
  | saveClicked wr =>
    cases wr with
    | ok n => exact collectProfileData_collInv s h
    | error e => exact collectProfileData_collInv s h
  | cancelClicked c =>
    show CollInv (onCancel s c).1
    unfold onCancel
    split
    · split
      · exact h
      · exact h
    · exact h

/-- Both invariants hold along every event trace. -/
theorem runEvents_inv : ∀ (tr : List Event) (s : EditorState),
    FieldInv s → CollInv s →
    FieldInv (runEvents s tr) ∧ CollInv (runEvents s tr) := by
  intro tr
  induction tr with
  | nil => intro s h1 h2; exact ⟨h1, h2⟩
  | cons e tr ih =>
    intro s h1 h2
    exact ih (step s e) (step_fieldInv s e h1) (step_collInv s e h2)

/-- The freshly constructed dialog satisfies the widget invariant. -/
theorem initState_fieldInv (dn : String) (coll : List (Nat × Profile)) :
    FieldInv (initState dn coll) := by
  unfold initState
  dsimp only
  split
  · exact initFields_inv
  · exact selectRow_fieldInv _ 0 initFields_inv

/-- The freshly constructed dialog satisfies the collection invariant
when the device collection is well formed. -/
theorem initState_collInv (dn : String) (coll : List (Nat × Profile))
    (hwf : ProfilesWF coll) : CollInv (initState dn coll) := by
  show ProfilesWF (initState dn coll).collection
  rw [(initState_base dn coll).2.2.1]
  exact hwf

/-- Every reachable dialog state satisfies both invariants. -/
theorem reachable_inv (dn : String) (coll : List (Nat × Profile))
    (s : EditorState) (hwf : ProfilesWF coll) (hr : Reachable dn coll s) :
    FieldInv s ∧ CollInv s := by
  obtain ⟨tr, rfl⟩ := hr
  exact runEvents_inv tr _ (initState_fieldInv dn coll) (initState_collInv dn coll hwf)

/-- An `OnboardProfiles` value whose version differs from the expected
constant. -/
def cexProfiles : OnboardProfiles :=
  { version := some 2, name := some "DemoMouse", profiles := demoColl }

/-- An `OnboardProfiles` value passing type, version and name checks. -/
def goodProfiles : OnboardProfiles :=
  { version := some OnboardProfilesVersion, name := some "DemoMouse",
    profiles := demoColl }

/-- An `OnboardProfiles` value with the expected version but a stored
device name differing from `dDemo`. -/
def renamedProfiles : OnboardProfiles :=
  { version := some OnboardProfilesVersion, name := some "OtherMouse",
    profiles := demoColl }

/-- The demonstration device. -/
def dDemo : Device := { name := "DemoMouse" }

/-! Claim theorems. -/

/-- Claim C1: for every import of a profiles file whose version differs
from `OnboardProfilesVersion`, `_do_import` reports a version-mismatch
error whose message names both the expected and the actual value, and
`profiles.write(device)` is never called. -/
theorem import_version_mismatch_reports_and_skips_write
    (p : OnboardProfiles) (d : Device) (wr : Except String Nat)
    (h : p.version ≠ some OnboardProfilesVersion) :
    (doImport (LoadedValue.onboardProfiles p) d wr).writeCalled = false ∧
    (doImport (LoadedValue.onboardProfiles p) d wr).success = false ∧
    (doImport (LoadedValue.onboardProfiles p) d wr).message
      = importFailedMsg ("Profile version mismatch. Expected "
          ++ toString OnboardProfilesVersion ++ ", got " ++ pyOptIntStr p.version) := by
  unfold doImport
  dsimp only
  rw [if_pos h]
  exact ⟨rfl, rfl, rfl⟩

/-- Witness for C1 at a concrete mismatching file. -/
theorem import_version_mismatch_witness :
    (doImport (LoadedValue.onboardProfiles cexProfiles) dDemo (Except.ok 5)).writeCalled
        = false ∧
    (doImport (LoadedValue.onboardProfiles cexProfiles) dDemo (Except.ok 5)).success
        = false ∧
    (doImport (LoadedValue.onboardProfiles cexProfiles) dDemo (Except.ok 5)).message
      = importFailedMsg ("Profile version mismatch. Expected "
          ++ toString OnboardProfilesVersion ++ ", got "
          ++ pyOptIntStr cexProfiles.version) :=
  import_version_mismatch_reports_and_skips_write cexProfiles dDemo
    (Except.ok 5) (by decide)

/-- Claim C2: exporting a profile collection and importing the file on
the same device writes back a collection in which every record equals
the original in name, enabled flag, resolutions, and both indices. -/
theorem export_import_round_trip (p : OnboardProfiles) (d : Device)
    (wr : Except String Nat) (hv : p.version = some OnboardProfilesVersion)
    (k : Nat) (pr : Profile) (hm : (k, pr) ∈ p.profiles) :
    ∃ q, (doImport (yamlSafeLoad (yamlDump p)) d wr).writtenProfiles = some q ∧
      ∃ pr2, (k, pr2) ∈ q.profiles ∧ pr2.name = pr.name ∧
        pr2.enabled = pr.enabled ∧ pr2.resolutions = pr.resolutions ∧
        pr2.resolution_default_index = pr.resolution_default_index ∧
        pr2.resolution_shift_index = pr.resolution_shift_index := by
  have hw : (doImport (yamlSafeLoad (yamlDump p)) d wr).writtenProfiles = some p := by
    unfold yamlDump yamlSafeLoad doImport
    dsimp only
    rw [if_neg (fun hne => hne hv)]
    cases wr <;> rfl
  exact ⟨p, hw, pr, hm, rfl, rfl, rfl, rfl, rfl⟩

/-- Witness for C2 at a concrete collection. -/
theorem export_import_round_trip_witness :
    ∃ q, (doImport (yamlSafeLoad (yamlDump goodProfiles)) dDemo
        (Except.ok 4)).writtenProfiles = some q ∧
      ∃ pr2, (1, pr2) ∈ q.profiles ∧ pr2.name = demoProfile.name ∧
        pr2.enabled = demoProfile.enabled ∧
        pr2.resolutions = demoProfile.resolutions ∧
        pr2.resolution_default_index = demoProfile.resolution_default_index ∧
        pr2.resolution_shift_index = demoProfile.resolution_shift_index :=
  export_import_round_trip goodProfiles dDemo (Except.ok 4) (by decide)
    1 demoProfile (by decide)

/-- Claim C9: an import passing type and version validation whose
stored device name differs from the current device logs exactly the
name-mismatch warning, still calls `profiles.write(device)`, and on a
successful write reports the number of sectors written. -/
theorem import_name_mismatch_warns_and_writes
    (p : OnboardProfiles) (d : Device) (wr : Except String Nat)
    (hv : p.version = some OnboardProfilesVersion)
    (hn : p.name ≠ some d.name) :
    (doImport (LoadedValue.onboardProfiles p) d wr).writeCalled = true ∧
    (doImport (LoadedValue.onboardProfiles p) d wr).warnings
      = [nameMismatchWarning p.name d.name] ∧
    ∀ m, wr = Except.ok m →
      (doImport (LoadedValue.onboardProfiles p) d wr).success = true ∧
      (doImport (LoadedValue.onboardProfiles p) d wr).message
        = importSuccessMsg m d.name := by
  unfold doImport
  dsimp only
  rw [if_neg (fun hne => hne hv), if_pos hn]
  cases wr with
  | ok m =>
    refine ⟨rfl, rfl, ?_⟩
    intro m2 hm2
    cases hm2
    exact ⟨rfl, rfl⟩
  | error e =>
    refine ⟨rfl, rfl, ?_⟩
    intro m2 hm2
    cases hm2

/-- Witness for C9 at a concrete renamed file. -/
theorem import_name_mismatch_witness :
    (doImport (LoadedValue.onboardProfiles renamedProfiles) dDemo
        (Except.ok 7)).writeCalled = true ∧
    (doImport (LoadedValue.onboardProfiles renamedProfiles) dDemo
        (Except.ok 7)).warnings
      = [nameMismatchWarning renamedProfiles.name dDemo.name] ∧
    ∀ m, (Except.ok 7 : Except String Nat) = Except.ok m →
      (doImport (LoadedValue.onboardProfiles renamedProfiles) dDemo
          (Except.ok 7)).success = true ∧
      (doImport (LoadedValue.onboardProfiles renamedProfiles) dDemo
          (Except.ok 7)).message = importSuccessMsg m dDemo.name :=
  import_name_mismatch_warns_and_writes renamedProfiles dDemo
    (Except.ok 7) (by decide) (by decide)

/-- Claim C5: a field-change event at a zero guard counter with a
profile selected sets the dirty flag and enables the save button, and
selecting a profile (same or other) never changes the dirty flag —
population during loading is suppressed by the guard. -/
theorem field_change_dirties_and_loading_never_dirties (s : EditorState) :
    (s.ignoreChanges = 0 → s.currentProfileNum.isSome = true →
      (onFieldChanged s).modified = true ∧
      (onFieldChanged s).saveSensitive = true) ∧
    ∀ r, (selectRow s r).modified = s.modified := by
  constructor
  · intro h _
    exact onFieldChanged_fires s h
  · intro r
    exact (selectRow_frame s r).2.2.2.2.2

/-- Witness for C5 at the freshly opened demonstration dialog. -/
theorem field_change_dirties_witness :
    ((onFieldChanged (initState "DemoMouse" demoColl)).modified = true ∧
     (onFieldChanged (initState "DemoMouse" demoColl)).saveSensitive = true) ∧
    (selectRow (initState "DemoMouse" demoColl) 0).modified
      = (initState "DemoMouse" demoColl).modified :=
  ⟨(field_change_dirties_and_loading_never_dirties
      (initState "DemoMouse" demoColl)).1 (by decide) (by decide),
   (field_change_dirties_and_loading_never_dirties
      (initState "DemoMouse" demoColl)).2 0⟩

/-- Claim C6: cancel with a clean form closes the dialog without any
prompt; cancel with a dirty form and a declined discard prompt shows
the prompt and leaves the whole dialog state unchanged. -/
theorem cancel_clean_closes_dirty_decline_unchanged (s : EditorState) (c : Bool) :
    (s.modified = false → onCancel s c = ({ s with isOpen := false }, false)) ∧
    (s.modified = true → onCancel s false = (s, true)) := by
  constructor
  · intro h
    unfold onCancel
    simp [h]
  · intro h
    unfold onCancel
    simp [h]

/-- Witness for C6: a clean dialog closes promptless; the dirty
`c3state` dialog survives a declined prompt unchanged. -/
theorem cancel_witness :
    onCancel (initState "DemoMouse" demoColl) true
      = ({ initState "DemoMouse" demoColl with isOpen := false }, false) ∧
    onCancel c3state false = (c3state, true) :=
  ⟨(cancel_clean_closes_dirty_decline_unchanged
      (initState "DemoMouse" demoColl) true).1 (by decide),
   (cancel_clean_closes_dirty_decline_unchanged c3state false).2 (by decide)⟩

/-- Claim C8: on completion of the asynchronous save write a modal
result is always produced; a successful write closes the dialog, a
failing write logs the error, surfaces it as a modal error dialog, and
leaves the dialog open. -/
theorem save_completion_modal_and_close (s : EditorState) (n : Nat) (e : String) :
    ((onSave s (Except.ok n)).1.isOpen = false ∧
     (onSave s (Except.ok n)).2.success = true ∧
     (onSave s (Except.ok n)).2.title = "Success" ∧
     (onSave s (Except.ok n)).2.message = "Successfully updated profiles on "
       ++ s.deviceName ++ ".\nWrote " ++ toString n ++ " sectors." ∧
     (onSave s (Except.ok n)).2.loggedError = none) ∧
    ((onSave s (Except.error e)).1.isOpen = s.isOpen ∧
     (onSave s (Except.error e)).2.success = false ∧
     (onSave s (Except.error e)).2.title = "Error" ∧
     (onSave s (Except.error e)).2.message
       = "Failed to write profiles to device:\n" ++ e ∧
     (onSave s (Except.error e)).2.loggedError = some e) := by
  refine ⟨⟨rfl, rfl, rfl, ?_, rfl⟩, ⟨?_, rfl, rfl, rfl, rfl⟩⟩
  · show "Successfully updated profiles on " ++ (collectProfileData s).deviceName
      ++ ".\nWrote " ++ toString n ++ " sectors."
      = "Successfully updated profiles on " ++ s.deviceName
      ++ ".\nWrote " ++ toString n ++ " sectors."
    rw [(collectProfileData_frame s).2.2.2.2.2]
  · show (collectProfileData s).isOpen = s.isOpen
    exact (collectProfileData_frame s).2.2.2.2.1

/-- Helper lemmas for the store-row frame property. -/
theorem updateStoreRows_length (n : Nat) (nm enc : String) :
    ∀ l : List StoreRow, (updateStoreRows n nm enc l).length = l.length := by
  intro l
  induction l with
  | nil => rfl
  | cons r rs ih =>
    unfold updateStoreRows
    split
    · rw [List.length_cons, List.length_cons]
    · rw [List.length_cons, List.length_cons, ih]

/-- Rows whose profile number differs from the updated one are kept
verbatim at their positions. -/
theorem updateStoreRows_get? (n : Nat) (nm enc : String) :
    ∀ (l : List StoreRow) (i : Nat) (r0 : StoreRow),
    l.get? i = some r0 → r0.num ≠ n →
    (updateStoreRows n nm enc l).get? i = some r0 := by
  intro l
  induction l with
  | nil => intro i r0 h _; cases i <;> cases h
  | cons r rs ih =>
    intro i r0 h hne
    unfold updateStoreRows
    cases i with
    | zero =>
      have hr : r = r0 := by
        have : some r = some r0 := h
        cases this
        rfl
      split
      · next hb =>
        have : r.num = n := eq_of_beq hb
        rw [hr] at this
        exact absurd this hne
      · rw [hr]
        rfl
    | succ j =>
      have hj : rs.get? j = some r0 := h
      split
      · exact hj
      · show (updateStoreRows n nm enc rs).get? j = some r0
        exact ih j r0 hj hne

/-- Claim C10: collecting field values is a no-op when no profile is
selected; with a selection it leaves every state component except the
collection and the store unchanged, keeps both lengths, and changes no
collection entry and no store row other than the one at the selected
profile number. -/
theorem collect_is_frame_scoped (s : EditorState) :
    (s.currentProfileNum = none → collectProfileData s = s) ∧
    ∀ n, s.currentProfileNum = some n →
      (collectProfileData s).currentProfileNum = s.currentProfileNum ∧
      (collectProfileData s).modified = s.modified ∧
      (collectProfileData s).fields = s.fields ∧
      (collectProfileData s).collection.length = s.collection.length ∧
      (collectProfileData s).store.length = s.store.length ∧
      (∀ i e, s.collection.get? i = some e → e.1 ≠ n →
        (collectProfileData s).collection.get? i = some e) ∧
      (∀ i r0, s.store.get? i = some r0 → r0.num ≠ n →
        (collectProfileData s).store.get? i = some r0) := by
  constructor
  · intro hc
    exact collect_none s hc
  · intro n hc
    cases hl : lookupProfile n s.collection with
    | none =>
      rw [collect_missing s n hc hl]
      refine ⟨rfl, rfl, rfl, rfl, rfl, ?_, ?_⟩
      · intro i e he _
        exact he
      · intro i r0 hr _
        exact hr
    | some old =>
      rw [collect_some s n old hc hl]
      refine ⟨rfl, rfl, rfl, ?_, ?_, ?_, ?_⟩
      · show (s.collection.map _).length = s.collection.length
        rw [List.length_map]
      · show (updateStoreRows n _ _ s.store).length = s.store.length
        rw [updateStoreRows_length]
      · intro i e he hne
        show (s.collection.map
          (fun e => if e.1 == n then (e.1, collectRecord s.fields old) else e)).get? i
          = some e
        rw [List.get?_map, he]
        have hb : ¬ ((e.1 == n) = true) := by
          intro hb
          exact hne (eq_of_beq hb)
        show some (if e.1 == n then (e.1, collectRecord s.fields old) else e) = some e
        rw [if_neg hb]
      · intro i r0 hr hne
        exact updateStoreRows_get? n _ _ s.store i r0 hr hne

/-- Witness for C10: a no-selection dialog is untouched; in the
two-profile dialog with profile 1 selected, the entry of profile 2 is
untouched by collection. -/
theorem collect_frame_witness :
    collectProfileData (initState "NoProfiles" []) = initState "NoProfiles" [] ∧
    (collectProfileData (initState "DemoMouse" cex4Coll)).collection.get? 1
      = some (2, profB) :=
  ⟨(collect_is_frame_scoped (initState "NoProfiles" [])).1 (by decide),
   ((collect_is_frame_scoped (initState "DemoMouse" cex4Coll)).2 1
      (by decide)).2.2.2.2.2.1 1 (2, profB) (by decide) (by decide)⟩

/-- With no default radio active, collection keeps the stored default
index. -/
theorem collectRecord_default_none (f : Fields) (old : Profile)
    (h : f.defaultRadio = none) :
    (collectRecord f old).resolution_default_index
      = old.resolution_default_index := by
  unfold collectRecord
  dsimp only
  rw [h]

/-- With no shift radio active, collection keeps the stored shift
index. -/
theorem collectRecord_shift_none (f : Fields) (old : Profile)
    (h : f.shiftRadio = none) :
    (collectRecord f old).resolution_shift_index
      = old.resolution_shift_index := by
  unfold collectRecord
  dsimp only
  rw [h]

/-- With default radio `i` active, collection stores index `i`. -/
theorem collectRecord_default_some (f : Fields) (old : Profile) (i : Fin 5)
    (h : f.defaultRadio = some i) :
    (collectRecord f old).resolution_default_index = (i.val : Int) := by
  unfold collectRecord
  dsimp only
  rw [h]

/-- With shift radio `i` active, collection stores index `i`. -/
theorem collectRecord_shift_some (f : Fields) (old : Profile) (i : Fin 5)
    (h : f.shiftRadio = some i) :
    (collectRecord f old).resolution_shift_index = (i.val : Int) := by
  unfold collectRecord
  dsimp only
  rw [h]

/-- Population leaves the default radio group untouched when the
loaded default index is out of `[0, 5)`. -/
theorem populateFields_defaultRadio_oor (s : EditorState) (p : Profile)
    (hd : ¬ (0 ≤ p.resolution_default_index ∧ p.resolution_default_index < 5)) :
    (populateFields s p).fields.defaultRadio = s.fields.defaultRadio := by
  unfold populateFields
  have hn9 := (widgetSetName_frame s p.name).2.2.2.2.2.2.2.2.1
  have he9 := (widgetSetEnabled_frame (widgetSetName s p.name)
    (p.enabled != 0)).2.2.2.2.2.2.2.2.1
  have hd9 := (setDpis_frame (widgetSetEnabled (widgetSetName s p.name)
    (p.enabled != 0)) p).2.2.2.2.2.2.2.2.1
  have hdef : setDefaultRadioFromProfile
      (setDpis (widgetSetEnabled (widgetSetName s p.name) (p.enabled != 0)) p) p
      = setDpis (widgetSetEnabled (widgetSetName s p.name) (p.enabled != 0)) p := by
    unfold setDefaultRadioFromProfile
    rw [dif_neg hd]
  have hs10 := (setShiftRadioFromProfile_frame
    (setDefaultRadioFromProfile
      (setDpis (widgetSetEnabled (widgetSetName s p.name) (p.enabled != 0)) p) p)
    p).2.2.2.2.2.2.2.2.2
  rw [hs10, hdef, hd9, he9, hn9]

/-- Population leaves the shift radio group untouched when the loaded
shift index is out of `[0, 5)`. -/
theorem populateFields_shiftRadio_oor (s : EditorState) (p : Profile)
    (hs : ¬ (0 ≤ p.resolution_shift_index ∧ p.resolution_shift_index < 5)) :
    (populateFields s p).fields.shiftRadio = s.fields.shiftRadio := by
  unfold populateFields
  have hn10 := (widgetSetName_frame s p.name).2.2.2.2.2.2.2.2.2
  have he10 := (widgetSetEnabled_frame (widgetSetName s p.name)
    (p.enabled != 0)).2.2.2.2.2.2.2.2.2
  have hd10 := (setDpis_frame (widgetSetEnabled (widgetSetName s p.name)
    (p.enabled != 0)) p).2.2.2.2.2.2.2.2.2
  have hdef10 := (setDefaultRadioFromProfile_frame
    (setDpis (widgetSetEnabled (widgetSetName s p.name) (p.enabled != 0)) p)
    p).2.2.2.2.2.2.2.2.2
  have hshift : setShiftRadioFromProfile
      (setDefaultRadioFromProfile
        (setDpis (widgetSetEnabled (widgetSetName s p.name) (p.enabled != 0)) p) p) p
      = setDefaultRadioFromProfile
        (setDpis (widgetSetEnabled (widgetSetName s p.name) (p.enabled != 0)) p) p := by
    unfold setShiftRadioFromProfile
    rw [dif_neg hs]
  rw [hshift, hdef10, hd10, he10, hn10]

/-- Claim C4 (amended): when a loaded profile has an out-of-range
default index, the default radio selection is left exactly as it was
(no clamping, no radio becomes selected that was not selected before);
when its shift index is out of range, likewise for the shift radio —
each group independently of the other index; and when a radio group
has no active member at collection time, the profile keeps its stored
(out-of-range) index for that group. -/
theorem out_of_range_indices_left_alone (s : EditorState) (rowIdx : Nat)
    (row : StoreRow) (p : Profile)
    (hg : s.store.get? rowIdx = some row)
    (hl : lookupProfile row.num s.collection = some p) :
    (¬ (0 ≤ p.resolution_default_index ∧ p.resolution_default_index < 5) →
      (selectRow s rowIdx).fields.defaultRadio = s.fields.defaultRadio) ∧
    (¬ (0 ≤ p.resolution_shift_index ∧ p.resolution_shift_index < 5) →
      (selectRow s rowIdx).fields.shiftRadio = s.fields.shiftRadio) ∧
    (∀ old, s.fields.defaultRadio = none →
      (collectRecord s.fields old).resolution_default_index
        = old.resolution_default_index) ∧
    (∀ old, s.fields.shiftRadio = none →
      (collectRecord s.fields old).resolution_shift_index
        = old.resolution_shift_index) := by
  rw [selectRow_some s rowIdx row p hg hl]
  refine ⟨?_, ?_, ?_, ?_⟩
  · intro hd
    show (populateFields (beginPopulate s row.num) p).fields.defaultRadio
      = s.fields.defaultRadio
    rw [populateFields_defaultRadio_oor (beginPopulate s row.num) p hd]
    rfl
  · intro hs
    show (populateFields (beginPopulate s row.num) p).fields.shiftRadio
      = s.fields.shiftRadio
    rw [populateFields_shiftRadio_oor (beginPopulate s row.num) p hs]
    rfl
  · intro old h
    exact collectRecord_default_none s.fields old h
  · intro old h
    exact collectRecord_shift_none s.fields old h

/-- Witness for the amended C4, at two concrete dialogs: the collection
whose only profile has both indices out of range (no radio selected
after the initial load, collection keeps both stored indices), and the
mixed collection whose only profile has the default index out of range
with an in-range shift index — the default radio is still untouched. -/
theorem out_of_range_indices_witness :
    (selectRow (initState "DemoMouse" collB) 0).fields.defaultRadio
      = (initState "DemoMouse" collB).fields.defaultRadio ∧
    (selectRow (initState "DemoMouse" collB) 0).fields.shiftRadio
      = (initState "DemoMouse" collB).fields.shiftRadio ∧
    (collectRecord (initState "DemoMouse" collB).fields profB).resolution_default_index
      = profB.resolution_default_index ∧
    (collectRecord (initState "DemoMouse" collB).fields profB).resolution_shift_index
      = profB.resolution_shift_index ∧
    (selectRow (initState "DemoMouse" collM) 0).fields.defaultRadio
      = (initState "DemoMouse" collM).fields.defaultRadio := by
  have h := out_of_range_indices_left_alone (initState "DemoMouse" collB) 0
    { num := 2, nameCell := "Broken", enabledCell := "" } profB
    (by decide) (by decide)
  have hm := out_of_range_indices_left_alone (initState "DemoMouse" collM) 0
    { num := 3, nameCell := "Mixed", enabledCell := "✓" } profM
    (by decide) (by decide)
  exact ⟨h.1 (by decide), h.2.1 (by decide), h.2.2.1 profB (by decide),
    h.2.2.2 profB (by decide), hm.1 (by decide)⟩

/-- Counterexample to C4 as stated: in `c4state` the loaded profile 2
has an out-of-range default index, yet a radio (the one left over from
profile 1) is selected after loading — the selection is left unchanged
rather than unset. -/
theorem out_of_range_radio_counterexample :
    lookupProfile 2 c4state.collection = some profB ∧
    ¬ (0 ≤ profB.resolution_default_index ∧ profB.resolution_default_index < 5) ∧
    c4state.currentProfileNum = some 2 ∧
    ¬ c4state.fields.defaultRadio = none :=
  ⟨by decide, by decide, by decide, by decide⟩

/-- Claim C3 (amended): the dirty flag after any event trace equals
whether some field-changed signal fired outside population since the
dialog opened; the flag is never cleared, so editing a field back to
its loaded value, or completing a save, leaves it set. -/
theorem modified_iff_some_field_change_fired (dn : String)
    (coll : List (Nat × Profile)) (tr : List Event) :
    (runEvents (initState dn coll) tr).modified
      = anyFires (initState dn coll) tr := by
  rw [runEvents_modified tr (initState dn coll) (initState_base dn coll).2.1,
    (initState_base dn coll).1, Bool.false_or]

/-- Counterexample to C3 as stated: after editing the name away and
back, every field again equals the loaded snapshot of the selected
profile, yet the dirty flag is still set — the flag is not "true iff
some field differs from the snapshot". -/
theorem dirty_flag_snapshot_counterexample :
    c3state.modified = true ∧
    c3state.currentProfileNum = some 1 ∧
    lookupProfile 1 c3state.collection = some demoProfile ∧
    c3state.fields = fieldsOfProfile demoProfile ∧
    ¬ (c3state.modified = true ↔ c3state.fields ≠ fieldsOfProfile demoProfile) :=
  ⟨by decide, by decide, by decide, by decide, by decide⟩

/-- Claim C7: on save with a selected profile, the collected field
values are persisted into the in-memory record before the device write
is invoked (the written collection is exactly the collected one), and
the persisted record has a name of at most 24 characters, exactly five
resolutions each within `[100, 25600]`, and a default and a shift index
in `[0, 5)` whenever the corresponding radio group has a selection. -/
theorem save_persists_validated_record
    (dn : String) (coll : List (Nat × Profile)) (s : EditorState)
    (hwf : ProfilesWF coll) (hr : Reachable dn coll s)
    (n : Nat) (old : Profile) (wr : Except String Nat)
    (hc : s.currentProfileNum = some n)
    (hl : lookupProfile n s.collection = some old) :
    (onSave s wr).2.writtenCollection = (collectProfileData s).collection ∧
    lookupProfile n (collectProfileData s).collection
      = some (collectRecord s.fields old) ∧
    (collectRecord s.fields old).name.length ≤ 24 ∧
    (collectRecord s.fields old).resolutions.length = 5 ∧
    (∀ v ∈ (collectRecord s.fields old).resolutions, 100 ≤ v ∧ v ≤ 25600) ∧
    (s.fields.defaultRadio.isSome = true →
      0 ≤ (collectRecord s.fields old).resolution_default_index ∧
      (collectRecord s.fields old).resolution_default_index < 5) ∧
    (s.fields.shiftRadio.isSome = true →
      0 ≤ (collectRecord s.fields old).resolution_shift_index ∧
      (collectRecord s.fields old).resolution_shift_index < 5) := by
  obtain ⟨⟨hname, hdlen, hdmem⟩, hcoll⟩ := reachable_inv dn coll s hwf hr
  obtain ⟨e0, he0, he02⟩ := lookupProfile_mem n s.collection old hl
  have hold5 : old.resolutions.length = 5 := by
    rw [← he02]
    exact hcoll e0 he0
  refine ⟨?_, ?_, ?_, ?_, ?_, ?_, ?_⟩
  · cases wr <;> rfl
  · rw [collect_some s n old hc hl]
    exact lookupProfile_map_update n (collectRecord s.fields old) s.collection old hl
  · show s.fields.nameText.length ≤ 24
    exact hname
  · show (assignDpis s.fields.dpi 0 old.resolutions).length = 5
    rw [assignDpis_length]
    exact hold5
  · intro v hv
    have hvd : v ∈ s.fields.dpi :=
      assignDpis_mem s.fields.dpi hdlen old.resolutions 0 (by omega) v hv
    exact hdmem v hvd
  · intro hsome
    obtain ⟨i, hi⟩ := Option.isSome_iff_exists.mp hsome
    rw [collectRecord_default_some s.fields old i hi]
    constructor
    · exact Int.natCast_nonneg i.val
    · exact_mod_cast i.isLt
  · intro hsome
    obtain ⟨i, hi⟩ := Option.isSome_iff_exists.mp hsome
    rw [collectRecord_shift_some s.fields old i hi]
    constructor
    · exact Int.natCast_nonneg i.val
    · exact_mod_cast i.isLt

/-- Witness for C7 at the freshly opened demonstration dialog. -/
theorem save_persists_validated_record_witness :
    (onSave (initState "DemoMouse" demoColl) (Except.ok 4)).2.writtenCollection
      = (collectProfileData (initState "DemoMouse" demoColl)).collection ∧
    lookupProfile 1 (collectProfileData (initState "DemoMouse" demoColl)).collection
      = some (collectRecord (initState "DemoMouse" demoColl).fields demoProfile) := by
  have h := save_persists_validated_record "DemoMouse" demoColl
    (initState "DemoMouse" demoColl) (by unfold ProfilesWF; decide) ⟨[], rfl⟩
    1 demoProfile (Except.ok 4) (by decide) (by decide)
  exact ⟨h.1, h.2.1⟩

end Solaar
